import Mathlib

/-!
Verification of the LCZ (Local Climate Zone) analysis engine of this repository:
shallow embedding in Lean 4 of the thermal-offset model, the temperature
calculator, the point-attribution step, the per-class statistics aggregator,
the scenario simulator and the raster classifier, together with theorems
settling the specification claims.

Modelling conventions:
- Python floats are modelled as exact rationals; Python's round(x, 2)
  (round-half-to-even at two decimals) is modelled exactly on the rationals.
- Python dicts appear as association lists looked up from the front
  (first binding wins), lists as Lean lists.
- pandas DataFrames are lists of records carrying the columns the code reads.
- NaN cells (missing values) are modelled as Option.none.
- Fatal ValueError raises are modelled with Except.error, and functions that
  return Python None on failure return Option.none.
-/

/-- Lookup in an association list, first binding wins (dict access). -/
def alookup {β : Type} : List (String × β) → String → Option β
  | [], _ => none
  | p :: l, k => if p.1 = k then some p.2 else alookup l k

/-- Round-half-to-even of a rational to an integer, the rounding rule of
Python's builtin round. -/
def roundHalfEvenZ (q : ℚ) : ℤ :=
  let f := ⌊q⌋
  let r := q - f
  if r < 1/2 then f
  else if 1/2 < r then f + 1
  else if f % 2 = 0 then f else f + 1

/-- Model of Python round(x, 2): round half to even at two decimal places. -/
def round2 (q : ℚ) : ℚ := (roundHalfEvenZ (q * 100) : ℚ) / 100

/-- Rationals exactly representable with two decimal places. -/
def isHundredth (q : ℚ) : Prop := ∃ k : ℤ, q = (k : ℚ) / 100

/-- Descriptions of the LCZ classes, table LCZ_DESCRIPTIONS of
src/lcz_processor.py. -/
def LCZ_DESCRIPTIONS : List (String × String) :=
  [("1", "Compact high-rise"), ("2", "Compact midrise"), ("3", "Compact low-rise"),
   ("4", "Open high-rise"), ("5", "Open midrise"), ("6", "Open low-rise"),
   ("7", "Lightweight low-rise"), ("8", "Large low-rise"), ("9", "Sparsely built"),
   ("10", "Heavy industry"), ("A", "Dense trees"), ("B", "Scattered trees"),
   ("C", "Bush, scrub"), ("D", "Low plants"), ("E", "Bare rock or paved"),
   ("F", "Bare soil or sand"), ("G", "Water")]

/-- Literature thermal offsets relative to LCZ D, table LCZ_TEMPERATURE_DELTA
of src/lcz_processor.py. -/
def LCZ_TEMPERATURE_DELTA : List (String × ℚ) :=
  [("1", 4.5), ("2", 3.5), ("3", 2.8), ("4", 2.5), ("5", 2.0), ("6", 1.5),
   ("7", 1.2), ("8", 2.2), ("9", 0.8), ("10", 3.0), ("A", -1.5), ("B", -0.8),
   ("C", -0.5), ("D", 0.0), ("E", 2.0), ("F", 1.0), ("G", -2.0)]

/-- Interpretation banding, LCZProcessor._interpret_change of
src/lcz_processor.py (returns the source's Portuguese band strings). -/
def _interpret_change (delta : ℚ) : String :=
  if delta > 2 then "Aquecimento significativo esperado"
  else if delta > 0.5 then "Aquecimento moderado esperado"
  else if delta > -0.5 then "Impacto térmico mínimo"
  else if delta > -2 then "Resfriamento moderado esperado"
  else "Resfriamento significativo esperado"

/-- One entry of the LCZ_CLASSES table of src/config.py: display name and
literature thermal offset (the color string is carried unused by the
temperature calculator). -/
structure ClassEntry where
  name : String
  color : String
  thermal_offset : ℚ
deriving DecidableEq, Repr

/-- Table LCZ_CLASSES of src/config.py. Its keys are the ints 1..17; the
calculator treats keys opaquely (membership test and indexing only), so keys
are modelled as strings. -/
def LCZ_CLASSES : List (String × ClassEntry) :=
  [("1", ⟨"Compact High-Rise", "#8C0000", 2.5⟩),
   ("2", ⟨"Compact Mid-Rise", "#D10000", 2.8⟩),
   ("3", ⟨"Compact Low-Rise", "#FF0000", 2.3⟩),
   ("4", ⟨"Open High-Rise", "#BF4D00", 1.8⟩),
   ("5", ⟨"Open Mid-Rise", "#FF6600", 2.0⟩),
   ("6", ⟨"Open Low-Rise", "#FF9955", 1.5⟩),
   ("7", ⟨"Lightweight Low-Rise", "#FAEE05", 1.2⟩),
   ("8", ⟨"Large Low-Rise", "#BCBCBC", 2.2⟩),
   ("9", ⟨"Sparsely Built", "#FFCCAA", 0.5⟩),
   ("10", ⟨"Heavy Industry", "#555555", 2.6⟩),
   ("11", ⟨"Dense Trees", "#006A00", -1.5⟩),
   ("12", ⟨"Scattered Trees", "#00AA00", -0.8⟩),
   ("13", ⟨"Bush or Scrub", "#648525", -0.3⟩),
   ("14", ⟨"Low Plants", "#B9DB79", 0.0⟩),
   ("15", ⟨"Bare Rock or Paved", "#000000", 2.0⟩),
   ("16", ⟨"Bare Soil or Sand", "#FBF7AE", 1.0⟩),
   ("17", ⟨"Water", "#6A6AFF", -2.0⟩)]

/-- Result dict of TemperatureCalculator.calculate_temperature_delta of
src/temperature_calculator.py (the presentational explanation string is
omitted). -/
structure TempDeltaResult where
  new_temperature : ℚ
  delta : ℚ
  from_lcz : String
  to_lcz : String
  from_name : String
  to_name : String
  base_temperature : ℚ
deriving DecidableEq, Repr

/-- TemperatureCalculator.calculate_temperature_delta of
src/temperature_calculator.py, parameterised over the class table held in
self.lcz_classes. Unknown labels return Python None, modelled as none; the
returned numbers are rounded with round(x, 2). -/
def calculate_temperature_delta (classes : List (String × ClassEntry))
    (from_lcz to_lcz : String) (base_temperature : ℚ) : Option TempDeltaResult :=
  match alookup classes from_lcz, alookup classes to_lcz with
  | some fe, some te =>
    let delta := te.thermal_offset - fe.thermal_offset
    let new_temperature := base_temperature + delta
    some { new_temperature := round2 new_temperature
           delta := round2 delta
           from_lcz := from_lcz
           to_lcz := to_lcz
           from_name := fe.name
           to_name := te.name
           base_temperature := round2 base_temperature }
  | _, _ => none

/-- One element of the zone_changes list consumed by
TemperatureCalculator.calculate_bulk_temperature_change. -/
structure ZoneChange where
  zone_id : String
  from_lcz : String
  to_lcz : String
deriving DecidableEq, Repr

/-- Replacement of the value bound to a key of an association list
(assignment to an existing dict key, preserving key order). -/
def aupdate {β : Type} (l : List (String × β)) (k : String) (v : β) :
    List (String × β) :=
  l.map fun p => if p.1 = k then (k, v) else p

/-- TemperatureCalculator.calculate_bulk_temperature_change of
src/temperature_calculator.py: folds the change list over a copy of the
temperature dict; the base temperature of every change is read from the
original dict. -/
def calculate_bulk_temperature_change (classes : List (String × ClassEntry))
    (zone_changes : List ZoneChange) (temperature_data : List (String × ℚ)) :
    List (String × ℚ) :=
  zone_changes.foldl
    (fun modified change =>
      match alookup temperature_data change.zone_id with
      | none => modified
      | some base_temp =>
        match calculate_temperature_delta classes change.from_lcz change.to_lcz base_temp with
        | none => modified
        | some result => aupdate modified change.zone_id result.new_temperature)
    temperature_data

/-- Statistics row as read by the simulators: the lcz_class and mean_temp
columns of the per-class statistics DataFrame. -/
structure MeanEntry where
  lcz_class : String
  mean_temp : ℚ
deriving DecidableEq, Repr

/-- First statistics row carrying the given class label:
stats[stats['lcz_class'] == cls]['mean_temp'].values with [0] taken when
nonempty. -/
def statLookup (stats : List MeanEntry) (cls : String) : Option ℚ :=
  (stats.find? fun r => r.lcz_class = cls).map (·.mean_temp)

/-- Result dict of LCZProcessor.simulate_lcz_change of src/lcz_processor.py. -/
structure LczChangeResult where
  from_class : String
  from_description : Option String
  to_class : String
  to_description : Option String
  area_fraction : ℚ
  from_temp : ℚ
  to_temp : ℚ
  observed_change : ℚ
  expected_change : ℚ
  interpretation : String
deriving DecidableEq, Repr

/-- LCZProcessor.simulate_lcz_change of src/lcz_processor.py. A class with no
stats row raises ValueError; the literature deltas are read with
LCZ_TEMPERATURE_DELTA.get(cls, 0), defaulting a label absent from the offset
table to 0. -/
def simulate_lcz_change (stats : List MeanEntry) (from_class to_class : String)
    (area_fraction : ℚ) : Except String LczChangeResult :=
  match statLookup stats from_class, statLookup stats to_class with
  | some from_temp, some to_temp =>
    let from_delta := (alookup LCZ_TEMPERATURE_DELTA from_class).getD 0
    let to_delta := (alookup LCZ_TEMPERATURE_DELTA to_class).getD 0
    let expected_change := to_delta - from_delta
    let observed_change := (to_temp - from_temp) * area_fraction
    .ok { from_class := from_class
          from_description := alookup LCZ_DESCRIPTIONS from_class
          to_class := to_class
          to_description := alookup LCZ_DESCRIPTIONS to_class
          area_fraction := area_fraction
          from_temp := from_temp
          to_temp := to_temp
          observed_change := observed_change
          expected_change := expected_change
          interpretation := _interpret_change observed_change }
  | _, _ => .error "Classe LCZ não encontrada"

/-- Catalog zone as read by the scenario simulator: the lcz_class and
area_km2 columns of the zone GeoDataFrame. -/
structure CatZone where
  lcz_class : String
  area_km2 : ℚ
deriving DecidableEq, Repr

/-- Zones whose class is in the given class list:
gdf[gdf['lcz_class'].isin(classes)]. -/
def zonesMatching (gdf : List CatZone) (classes : List String) : List CatZone :=
  gdf.filter fun z => classes.contains z.lcz_class

/-- Mean temperatures collected for the source classes that have a stats row
(the veg_temps / urban_temps loop of src/scenario_simulator.py). -/
def sourceMeans (stats : List MeanEntry) (classes : List String) : List ℚ :=
  classes.filterMap (statLookup stats)

/-- Result dict of ScenarioSimulator.simulate_urbanization_scenario of
src/scenario_simulator.py. -/
structure UrbanizationResult where
  scenario_type : String
  vegetation_classes : List String
  target_class : String
  conversion_rate : ℚ
  total_area_converted_km2 : ℚ
  avg_vegetation_temp : ℚ
  target_urban_temp : ℚ
  expected_temp_increase : ℚ
  num_zones_affected : ℕ
deriving DecidableEq, Repr

/-- ScenarioSimulator.simulate_urbanization_scenario of
src/scenario_simulator.py, over the zone catalog self.lcz_processor.gdf and
the statistics self.stats. -/
def simulate_urbanization_scenario (gdf : List CatZone) (stats : List MeanEntry)
    (vegetation_classes : List String) (target_class : String)
    (conversion_rate : ℚ) : Except String UrbanizationResult :=
  let veg_zones := zonesMatching gdf vegetation_classes
  if veg_zones.length = 0 then .error "Nenhuma zona de vegetação encontrada"
  else
    let total_area := (veg_zones.map (·.area_km2)).sum * conversion_rate
    let veg_temps := sourceMeans stats vegetation_classes
    let avg_veg_temp : Option ℚ :=
      if veg_temps.length ≠ 0 then some (veg_temps.sum / veg_temps.length) else none
    let target_temp : Option ℚ := statLookup stats target_class
    match avg_veg_temp, target_temp with
    | some avg, some tgt =>
      .ok { scenario_type := "urbanization"
            vegetation_classes := vegetation_classes
            target_class := target_class
            conversion_rate := conversion_rate
            total_area_converted_km2 := total_area
            avg_vegetation_temp := avg
            target_urban_temp := tgt
            expected_temp_increase := (tgt - avg) * conversion_rate
            num_zones_affected := veg_zones.length }
    | _, _ => .error "Dados de temperatura insuficientes"

/-- Result dict of ScenarioSimulator.simulate_greening_scenario of
src/scenario_simulator.py. -/
structure GreeningResult where
  scenario_type : String
  urban_classes : List String
  target_class : String
  conversion_rate : ℚ
  total_area_converted_km2 : ℚ
  avg_urban_temp : ℚ
  target_vegetation_temp : ℚ
  expected_temp_decrease : ℚ
  num_zones_affected : ℕ
deriving DecidableEq, Repr

/-- ScenarioSimulator.simulate_greening_scenario of src/scenario_simulator.py:
identical computation to the urbanization flavor, different field naming. -/
def simulate_greening_scenario (gdf : List CatZone) (stats : List MeanEntry)
    (urban_classes : List String) (target_class : String)
    (conversion_rate : ℚ) : Except String GreeningResult :=
  let urban_zones := zonesMatching gdf urban_classes
  if urban_zones.length = 0 then .error "Nenhuma zona urbana encontrada"
  else
    let total_area := (urban_zones.map (·.area_km2)).sum * conversion_rate
    let urban_temps := sourceMeans stats urban_classes
    let avg_urban_temp : Option ℚ :=
      if urban_temps.length ≠ 0 then some (urban_temps.sum / urban_temps.length) else none
    let target_temp : Option ℚ := statLookup stats target_class
    match avg_urban_temp, target_temp with
    | some avg, some tgt =>
      .ok { scenario_type := "greening"
            urban_classes := urban_classes
            target_class := target_class
            conversion_rate := conversion_rate
            total_area_converted_km2 := total_area
            avg_urban_temp := avg
            target_vegetation_temp := tgt
            expected_temp_decrease := (tgt - avg) * conversion_rate
            num_zones_affected := urban_zones.length }
    | _, _ => .error "Dados de temperatura insuficientes"

/-- Input sample row of LCZProcessor.assign_lcz_to_points: the lat, lon and
temperature columns. -/
structure Sample where
  lat : ℚ
  lon : ℚ
  temperature : ℚ
deriving DecidableEq, Repr

/-- Output sample row after attribution: the input columns plus the written
lcz_class column (NaN for unmatched points, modelled as none). -/
structure AssignedSample where
  lat : ℚ
  lon : ℚ
  temperature : ℚ
  lcz_class : Option String
deriving DecidableEq, Repr

/-- Catalog zone as read by the attribution step: class label plus the
geometric containment test Point(lon, lat).within(zone.geometry) evaluated by
shapely, abstracted as a boolean function of (lon, lat). -/
structure GeoZone where
  lcz_class : String
  containsPt : ℚ → ℚ → Bool

/-- Row block of the geopandas left spatial join for one point: one row per
catalog zone containing the point, in catalog order, or a single row with a
null class when no zone contains it. -/
def sjoinRowsFor (zones : List GeoZone) (p : Sample) : List (Option String) :=
  match zones.filter (fun z => z.containsPt p.lon p.lat) with
  | [] => [none]
  | ms => ms.map fun z => some z.lcz_class

/-- Rows of gpd.sjoin(points, zones, how='left', predicate='within'): left
rows in order, duplicated once per containing zone. -/
def sjoinRows (zones : List GeoZone) (df : List Sample) : List (Option String) :=
  df.flatMap (sjoinRowsFor zones)

/-- LCZProcessor.assign_lcz_to_points of src/lcz_processor.py: copies the
frame, spatial-joins it against the catalog and writes the joined lcz_class
values back as a column. The column assignment
df['lcz_class'] = joined['lcz_class'].values raises ValueError (modelled as
none) when the join produced a different number of rows than the frame has,
which happens as soon as one point lies within two zones. -/
def assign_lcz_to_points (zones : List GeoZone) (df : List Sample) :
    Option (List AssignedSample) :=
  let joined := sjoinRows zones df
  if joined.length = df.length then
    some ((df.zip joined).map fun s =>
      { lat := s.1.lat, lon := s.1.lon, temperature := s.1.temperature
        lcz_class := s.2 })
  else none

/-- Row of the DataFrame consumed by LCZProcessor.calculate_lcz_statistics:
the lcz_class and temperature columns. -/
structure TempRow where
  lcz_class : Option String
  temperature : ℚ
deriving DecidableEq, Repr

/-- Row of the statistics DataFrame produced by
LCZProcessor.calculate_lcz_statistics. The pandas std_temp column is the
square root of the variance_temp field kept here (pandas agg 'std' with its
default ddof=1); keeping the squared value keeps the embedding exactly
computable, and std_temp is NaN exactly when variance_temp is none. -/
structure StatRow where
  lcz_class : String
  mean_temp : ℚ
  variance_temp : Option ℚ
  min_temp : ℚ
  max_temp : ℚ
  count : ℕ
  description : Option String
  temp_delta_expected : Option ℚ
  temp_delta_observed : Option ℚ
deriving DecidableEq, Repr

/-- Distinct class labels of the non-null rows, ascending: pandas groupby
drops NaN keys and sorts the group keys. -/
def attributedClasses (df : List TempRow) : List String :=
  ((df.filterMap (·.lcz_class)).dedup).insertionSort (· ≤ ·)

/-- Temperatures of the rows attributed to the given class, in row order. -/
def classTemps (df : List TempRow) (cls : String) : List ℚ :=
  df.filterMap fun r => if r.lcz_class = some cls then some r.temperature else none

/-- Smallest element of a temperature list (0 on the empty list, which the
aggregation never produces). -/
def listMin (l : List ℚ) : ℚ :=
  match l with
  | [] => 0
  | x :: xs => xs.foldl min x

/-- Largest element of a temperature list (0 on the empty list, which the
aggregation never produces). -/
def listMax (l : List ℚ) : ℚ :=
  match l with
  | [] => 0
  | x :: xs => xs.foldl max x

/-- Aggregated row for one class before the observed-delta column is written:
mean, std (ddof=1, kept squared; NaN below two samples), min, max, count, and
the metadata joins of LCZProcessor.calculate_lcz_statistics. -/
def mkStatRow (df : List TempRow) (cls : String) : StatRow :=
  let temps := classTemps df cls
  let n : ℕ := temps.length
  let mean := temps.sum / (n : ℚ)
  { lcz_class := cls
    mean_temp := mean
    variance_temp :=
      if 2 ≤ n then some (((temps.map fun t => (t - mean) ^ 2).sum) / ((n : ℚ) - 1))
      else none
    min_temp := listMin temps
    max_temp := listMax temps
    count := n
    description := alookup LCZ_DESCRIPTIONS cls
    temp_delta_expected := alookup LCZ_TEMPERATURE_DELTA cls
    temp_delta_observed := none }

/-- Aggregation stage of LCZProcessor.calculate_lcz_statistics: the groupby
result, one row per attributed class in ascending label order. -/
def groupedStats (df : List TempRow) : List StatRow :=
  (attributedClasses df).map (mkStatRow df)

/-- Observed-delta stage of LCZProcessor.calculate_lcz_statistics: the mean
of class D anchors temp_delta_observed = mean_temp - mean(D) for every row
when a D row exists; otherwise the whole column is NaN. -/
def statsWithObserved (df : List TempRow) : List StatRow :=
  let lcz_d_temp := ((groupedStats df).find? fun r => r.lcz_class = "D").map
    (·.mean_temp)
  (groupedStats df).map fun r =>
    { r with temp_delta_observed := lcz_d_temp.map fun d => r.mean_temp - d }

/-- LCZProcessor.calculate_lcz_statistics of src/lcz_processor.py: group the
attributed rows by class, join the metadata, anchor the observed deltas on
the mean of class D when present (NaN otherwise), and sort by mean_temp
descending. pandas sort_values(ascending=False) runs nargsort, which
reverses both the values and the index array, takes the ascending argsort
(a stable insertion sort at these sizes) and reverses the indexer back, so
rows with equal keys keep their original order: a stable descending sort,
modelled as a stable insertion sort by descending mean. -/
def calculate_lcz_statistics (df : List TempRow) : List StatRow :=
  (statsWithObserved df).insertionSort fun a b => b.mean_temp ≤ a.mean_temp

/-- RGB color triple of a classified raster pixel. -/
def RGB : Type := ℕ × ℕ × ℕ

instance : DecidableEq RGB := by unfold RGB; infer_instance

/-- Squared Euclidean distance in RGB space. The source compares float
square roots of these values; since square root is strictly monotone and all
compared quantities are nonnegative integers, the comparisons dist < min_dist
and min_dist < 30 are exactly distSq < minDistSq and minDistSq < 900. -/
def distSq (a b : RGB) : ℤ :=
  ((a.1 : ℤ) - b.1) ^ 2 + ((a.2.1 : ℤ) - b.2.1) ^ 2 + ((a.2.2 : ℤ) - b.2.2) ^ 2

/-- Table LCZ_COLORS of src/lcz_raster_processor.py, in its insertion order. -/
def LCZ_COLORS : List (ℕ × RGB) :=
  [(1, (140, 0, 0)), (2, (209, 0, 0)), (3, (255, 0, 0)), (4, (191, 77, 0)),
   (5, (255, 102, 0)), (6, (255, 153, 85)), (7, (250, 238, 5)),
   (8, (188, 188, 188)), (9, (255, 204, 170)), (10, (85, 85, 85)),
   (11, (0, 106, 0)), (12, (0, 170, 0)), (13, (100, 133, 37)),
   (14, (185, 219, 121)), (15, (0, 0, 0)), (16, (251, 247, 174)),
   (17, (106, 106, 255))]

/-- Loop state of LCZRasterProcessor.find_closest_lcz: the best class seen so
far with its squared distance (none before the first table entry). The strict
comparison keeps the earliest table entry among equidistant ones. -/
def closestAux (color : RGB) : List (ℕ × RGB) → Option (ℕ × ℤ) → Option (ℕ × ℤ)
  | [], acc => acc
  | e :: rest, acc =>
    match acc with
    | none => closestAux color rest (some (e.1, distSq color e.2))
    | some (cls, d) =>
      if distSq color e.2 < d then closestAux color rest (some (e.1, distSq color e.2))
      else closestAux color rest (some (cls, d))

/-- LCZRasterProcessor.find_closest_lcz of src/lcz_raster_processor.py: the
nearest table entry in RGB space, dropped (Python None) when its distance is
not below the tolerance 30 (squared: 900). -/
def find_closest_lcz (color : RGB) : Option ℕ :=
  match closestAux color LCZ_COLORS none with
  | some (cls, d) => if d < 900 then some cls else none
  | none => none

/-- Lexicographic order on RGB triples, the row order of np.unique(axis=0). -/
def rgbLe (a b : RGB) : Prop :=
  a.1 < b.1 ∨ (a.1 = b.1 ∧ (a.2.1 < b.2.1 ∨ (a.2.1 = b.2.1 ∧ a.2.2 ≤ b.2.2)))

instance : DecidableRel rgbLe := fun _ _ => by unfold rgbLe; infer_instance

/-- Distinct colors of a pixel block in np.unique order: sorted
lexicographically. -/
def uniqueColors (pixels : List RGB) : List RGB :=
  (pixels.dedup).insertionSort rgbLe

/-- First element of the candidate list attaining the maximal occurrence
count in the pixel block: np.argmax over the np.unique counts, which keeps
the earliest index among ties. -/
def firstMode (pixels : List RGB) : List RGB → Option RGB
  | [] => none
  | c :: rest =>
    match firstMode pixels rest with
    | none => some c
    | some b => if pixels.count b > pixels.count c then some b else some c

/-- Dominant color of a pixel block as computed by
LCZRasterProcessor.create_grid_features: np.unique with counts (rows sorted
lexicographically) followed by np.argmax of the counts. -/
def dominantColor (pixels : List RGB) : Option RGB :=
  firstMode pixels (uniqueColors pixels)

/-- Classification of one grid cell of
LCZRasterProcessor.create_grid_features: the dominant color of its pixel
block, classified by find_closest_lcz; none when the cell is dropped. -/
def classifyCell (pixels : List RGB) : Option ℕ :=
  (dominantColor pixels).bind find_closest_lcz

/-- Class labels of the features appended by
LCZRasterProcessor.create_grid_features, one per grid cell whose
classification succeeds, in cell scan order (the per-feature rectangle
geometry is index bookkeeping not touched by the claims). -/
def create_grid_features (cells : List (List RGB)) : List ℕ :=
  cells.filterMap classifyCell

/-- Thermal-offset table used by the concrete instances of the claims:
offset("2") = 3.5, offset("A") = -1.5, offset("D") = 0 (display names and
colors are irrelevant to the delta computation). -/
def claimThermalTable : List (String × ClassEntry) :=
  [("2", ⟨"Compact midrise", "", 3.5⟩),
   ("A", ⟨"Dense trees", "", -1.5⟩),
   ("D", ⟨"Low plants", "", 0⟩)]

/-- New temperature written by the last change of the list that references
the given key and whose two classes are both known to the table, computed
from the key's original temperature; none when no such change exists. -/
def lastApplicable (classes : List (String × ClassEntry)) (k : String)
    (t0 : ℚ) : List ZoneChange → Option ℚ
  | [] => none
  | c :: rest =>
    let tail := lastApplicable classes k t0 rest
    if c.zone_id = k then
      match tail with
      | some v => some v
      | none =>
        (calculate_temperature_delta classes c.from_lcz c.to_lcz t0).map
          (·.new_temperature)
    else tail

/-- Strict version of the lexicographic RGB order. -/
def rgbLt (a b : RGB) : Prop := rgbLe a b ∧ a ≠ b

instance : IsTotal RGB rgbLe :=
  ⟨fun a b => by unfold rgbLe; omega⟩

instance : IsTrans RGB rgbLe :=
  ⟨fun a b c => by unfold rgbLe; omega⟩

/-- Statistics rows in the strict order of the final sort: mean temperature
descending, rows of equal mean in ascending label order. -/
def meanLexDesc (a b : StatRow) : Prop :=
  b.mean_temp < a.mean_temp ∨
    (a.mean_temp = b.mean_temp ∧ a.lcz_class < b.lcz_class)

/-- C1 counterexample: the claim puts delta = -2.0 in the "moderate cooling"
band, but LCZProcessor._interpret_change tests delta > -2 strictly, so -2.0
falls through to "significant cooling" ("Resfriamento significativo
esperado", not "Resfriamento moderado esperado"). -/
theorem interpret_change_neg_two_counterexample :
    _interpret_change (-2) = "Resfriamento significativo esperado" ∧
    _interpret_change (-2) ≠ "Resfriamento moderado esperado" := by
  have h : _interpret_change (-2) = "Resfriamento significativo esperado" := by
    unfold _interpret_change
    norm_num
  exact ⟨h, by rw [h]; decide⟩

/-- C1 (amended): the bands actually implemented by
LCZProcessor._interpret_change are delta > 2 significant warming,
0.5 < delta <= 2 moderate warming, -0.5 < delta <= 0.5 minimal impact,
-2 < delta <= -0.5 moderate cooling, and delta <= -2 significant cooling
(so the moderate-cooling band is (-2, -0.5], not [-2, -0.5)); at the
boundaries, delta = 2.0 is moderate warming, delta = 0.5 is minimal impact
and delta = -2.0 is significant cooling. -/
theorem interpret_change_bands (d : ℚ) :
    (2 < d → _interpret_change d = "Aquecimento significativo esperado") ∧
    (1/2 < d ∧ d ≤ 2 → _interpret_change d = "Aquecimento moderado esperado") ∧
    (-(1/2) < d ∧ d ≤ 1/2 → _interpret_change d = "Impacto térmico mínimo") ∧
    (-2 < d ∧ d ≤ -(1/2) → _interpret_change d = "Resfriamento moderado esperado") ∧
    (d ≤ -2 → _interpret_change d = "Resfriamento significativo esperado") ∧
    _interpret_change 2 = "Aquecimento moderado esperado" ∧
    _interpret_change (1/2) = "Impacto térmico mínimo" ∧
    _interpret_change (-2) = "Resfriamento significativo esperado" := by
  refine ⟨fun h => ?_, fun h => ?_, fun h => ?_, fun h => ?_, fun h => ?_,
    ?_, ?_, ?_⟩
  · unfold _interpret_change
    split_ifs <;> first | rfl | (exfalso; linarith)
  · obtain ⟨ha, hb⟩ := h
    unfold _interpret_change
    split_ifs <;> first | rfl | (exfalso; linarith)
  · obtain ⟨ha, hb⟩ := h
    unfold _interpret_change
    split_ifs <;> first | rfl | (exfalso; linarith)
  · obtain ⟨ha, hb⟩ := h
    unfold _interpret_change
    split_ifs <;> first | rfl | (exfalso; linarith)
  · unfold _interpret_change
    split_ifs <;> first | rfl | (exfalso; linarith)
  · unfold _interpret_change
    norm_num
  · unfold _interpret_change
    norm_num
  · unfold _interpret_change
    norm_num

/-- Witness for interpret_change_bands: each band hypothesis discharged at a
concrete delta. -/
theorem interpret_change_bands_witness :
    _interpret_change 3 = "Aquecimento significativo esperado" ∧
    _interpret_change 1 = "Aquecimento moderado esperado" ∧
    _interpret_change 0 = "Impacto térmico mínimo" ∧
    _interpret_change (-1) = "Resfriamento moderado esperado" ∧
    _interpret_change (-3) = "Resfriamento significativo esperado" :=
  ⟨(interpret_change_bands 3).1 (by norm_num),
   (interpret_change_bands 1).2.1 ⟨by norm_num, by norm_num⟩,
   (interpret_change_bands 0).2.2.1 ⟨by norm_num, by norm_num⟩,
   (interpret_change_bands (-1)).2.2.2.1 ⟨by norm_num, by norm_num⟩,
   (interpret_change_bands (-3)).2.2.2.2.1 (by norm_num)⟩

/-- Helper: rounding an integer-valued rational is the identity. -/
theorem roundHalfEvenZ_intCast (k : ℤ) : roundHalfEvenZ (k : ℚ) = k := by
  unfold roundHalfEvenZ
  norm_num

/-- Helper: round2 is the identity on rationals with two decimal places. -/
theorem round2_hundredth {q : ℚ} (h : isHundredth q) : round2 q = q := by
  obtain ⟨k, rfl⟩ := h
  unfold round2
  rw [div_mul_cancel₀ _ (by norm_num : (100 : ℚ) ≠ 0), roundHalfEvenZ_intCast]

/-- Helper: two-decimal rationals are closed under subtraction. -/
theorem isHundredth_sub {a b : ℚ} (ha : isHundredth a) (hb : isHundredth b) :
    isHundredth (a - b) := by
  obtain ⟨k, rfl⟩ := ha
  obtain ⟨m, rfl⟩ := hb
  exact ⟨k - m, by push_cast; ring⟩

/-- Helper: two-decimal rationals are closed under addition. -/
theorem isHundredth_add {a b : ℚ} (ha : isHundredth a) (hb : isHundredth b) :
    isHundredth (a + b) := by
  obtain ⟨k, rfl⟩ := ha
  obtain ⟨m, rfl⟩ := hb
  exact ⟨k + m, by push_cast; ring⟩

/-- C2 (amended): for labels present in the class table,
calculate_temperature_delta returns delta and new_temperature equal to
offset(to) - offset(from) and t + delta rounded to two decimal places by
round(x, 2); the rounding is the identity (so the claim's exact equations
hold) whenever the offsets and the base temperature have at most two decimal
places. Concretely, with offsets "2" -> 3.5 and "A" -> -1.5, the call
simulate_pair("2", "A", 28.0) yields delta = -5.0 and new_temperature =
23.0, and the band of -5.0 is significant cooling. -/
theorem calculate_temperature_delta_spec :
    (∀ (classes : List (String × ClassEntry)) (a b : String) (t : ℚ)
      (ea eb : ClassEntry),
      alookup classes a = some ea → alookup classes b = some eb →
      ∃ r, calculate_temperature_delta classes a b t = some r ∧
        r.delta = round2 (eb.thermal_offset - ea.thermal_offset) ∧
        r.new_temperature = round2 (t + (eb.thermal_offset - ea.thermal_offset)) ∧
        (isHundredth ea.thermal_offset → isHundredth eb.thermal_offset →
          isHundredth t →
          r.delta = eb.thermal_offset - ea.thermal_offset ∧
          r.new_temperature = t + r.delta)) ∧
    ((calculate_temperature_delta claimThermalTable "2" "A" 28).map
        (fun r => (r.delta, r.new_temperature))) = some (-5, 23) ∧
    _interpret_change (-5) = "Resfriamento significativo esperado" := by
  refine ⟨?_, ?_, ?_⟩
  · intro classes a b t ea eb ha hb
    refine ⟨_, by unfold calculate_temperature_delta; rw [ha, hb], rfl, rfl, ?_⟩
    intro h1 h2 h3
    have hd : round2 (eb.thermal_offset - ea.thermal_offset) =
        eb.thermal_offset - ea.thermal_offset :=
      round2_hundredth (isHundredth_sub h2 h1)
    refine ⟨hd, ?_⟩
    show round2 (t + (eb.thermal_offset - ea.thermal_offset)) = _
    rw [round2_hundredth (isHundredth_add h3 (isHundredth_sub h2 h1)), hd]
  · have h2 : alookup claimThermalTable "2" =
        some ⟨"Compact midrise", "", 3.5⟩ := by simp [alookup, claimThermalTable]
    have hA : alookup claimThermalTable "A" =
        some ⟨"Dense trees", "", -1.5⟩ := by simp [alookup, claimThermalTable]
    unfold calculate_temperature_delta
    rw [h2, hA]
    have hd : round2 ((-1.5 : ℚ) - 3.5) = -5 := by
      rw [show ((-1.5 : ℚ) - 3.5) = -5 by norm_num,
        round2_hundredth ⟨-500, by norm_num⟩]
    have hn : round2 ((28 : ℚ) + (-1.5 - 3.5)) = 23 := by
      rw [show ((28 : ℚ) + (-1.5 - 3.5)) = 23 by norm_num,
        round2_hundredth ⟨2300, by norm_num⟩]
    simp [hd, hn]
  · unfold _interpret_change
    norm_num

/-- Witness for calculate_temperature_delta_spec: the universal part applied
to the claim's concrete offset table, labels and base temperature. -/
theorem calculate_temperature_delta_spec_witness :
    ∃ r, calculate_temperature_delta claimThermalTable "2" "A" 28 = some r ∧
      r.delta = (-1.5 : ℚ) - 3.5 ∧ r.new_temperature = 28 + r.delta := by
  obtain ⟨r, hr, _, _, hh⟩ :=
    calculate_temperature_delta_spec.1 claimThermalTable "2" "A" 28
      ⟨"Compact midrise", "", 3.5⟩ ⟨"Dense trees", "", -1.5⟩
      (by simp [alookup, claimThermalTable]) (by simp [alookup, claimThermalTable])
  obtain ⟨hd, hn⟩ := hh ⟨350, by norm_num⟩ ⟨-150, by norm_num⟩ ⟨2800, by norm_num⟩
  exact ⟨r, hr, hd, hn⟩

/-- C2 counterexample: the claim asserts new_temperature = t + delta for
every base temperature, but the code rounds with round(x, 2): at
t = 0.001 with the claim's offsets, the returned new_temperature is -5.0
while t + delta = -4.999. -/
theorem calculate_temperature_delta_round_counterexample :
    ((calculate_temperature_delta claimThermalTable "2" "A" (1/1000)).map
        (fun r => (r.delta, r.new_temperature))) = some (-5, -5) ∧
    (1/1000 : ℚ) + (-5) ≠ -5 := by
  constructor
  · have h2 : alookup claimThermalTable "2" =
        some ⟨"Compact midrise", "", 3.5⟩ := by simp [alookup, claimThermalTable]
    have hA : alookup claimThermalTable "A" =
        some ⟨"Dense trees", "", -1.5⟩ := by simp [alookup, claimThermalTable]
    unfold calculate_temperature_delta
    rw [h2, hA]
    have hd : round2 ((-1.5 : ℚ) - 3.5) = -5 := by
      rw [show ((-1.5 : ℚ) - 3.5) = -5 by norm_num,
        round2_hundredth ⟨-500, by norm_num⟩]
    have hn : round2 ((1/1000 : ℚ) + (-1.5 - 3.5)) = -5 := by
      have e1 : ((1/1000 : ℚ) + (-1.5 - 3.5)) * 100 = -4999/10 := by norm_num
      have e2 : roundHalfEvenZ (-4999/10) = -500 := by
        have hf : ⌊(-4999/10 : ℚ)⌋ = -500 := by
          rw [Int.floor_eq_iff]
          norm_num
        unfold roundHalfEvenZ
        rw [hf]
        norm_num
      unfold round2
      rw [e1, e2]
      norm_num
    show some (round2 ((-1.5 : ℚ) - 3.5), round2 ((1/1000 : ℚ) + (-1.5 - 3.5))) =
      some ((-5 : ℚ), (-5 : ℚ))
    rw [hd, hn]
  · norm_num

/-- C4 (amended): calculate_temperature_delta fails distinctly (returns
Python None) when either label is outside its class table, and
simulate_lcz_change raises only when a class has no statistics row; its
expected_change is computed with LCZ_TEMPERATURE_DELTA.get(cls, 0), so a
label absent from the offset table is silently given offset 0 there and the
result is indistinguishable from a legitimate zero delta. -/
theorem delta_lookup_unknown :
    (∀ (classes : List (String × ClassEntry)) (a b : String) (t : ℚ),
      (alookup classes a = none ∨ alookup classes b = none) →
      calculate_temperature_delta classes a b t = none) ∧
    (∀ (stats : List MeanEntry) (a b : String) (f : ℚ),
      (statLookup stats a = none ∨ statLookup stats b = none) →
      simulate_lcz_change stats a b f = .error "Classe LCZ não encontrada") ∧
    (∀ (stats : List MeanEntry) (a b : String) (f ta tb : ℚ),
      statLookup stats a = some ta → statLookup stats b = some tb →
      alookup LCZ_TEMPERATURE_DELTA a = none →
      ∃ r, simulate_lcz_change stats a b f = .ok r ∧
        r.expected_change = (alookup LCZ_TEMPERATURE_DELTA b).getD 0 - 0) := by
  refine ⟨?_, ?_, ?_⟩
  · intro classes a b t h
    unfold calculate_temperature_delta
    rcases h with h | h <;> rw [h] <;>
      first
        | rfl
        | (cases alookup classes a <;> rfl)
        | (cases alookup classes b <;> rfl)
  · intro stats a b f h
    unfold simulate_lcz_change
    rcases h with h | h <;> rw [h] <;>
      first
        | rfl
        | (cases statLookup stats a <;> rfl)
        | (cases statLookup stats b <;> rfl)
  · intro stats a b f ta tb ha hb hu
    simp only [simulate_lcz_change, ha, hb, hu]
    exact ⟨_, rfl, rfl⟩

/-- Witness for delta_lookup_unknown: each of the three parts applied at a
concrete input. -/
theorem delta_lookup_unknown_witness :
    calculate_temperature_delta LCZ_CLASSES "99" "1" 20 = none ∧
    simulate_lcz_change [] "D" "A" 1 = .error "Classe LCZ não encontrada" ∧
    ∃ r, simulate_lcz_change [⟨"D", 25⟩, ⟨"X", 25⟩] "X" "D" 1 = .ok r ∧
      r.expected_change = (alookup LCZ_TEMPERATURE_DELTA "D").getD 0 - 0 :=
  ⟨delta_lookup_unknown.1 LCZ_CLASSES "99" "1" 20
      (Or.inl (by simp [alookup, LCZ_CLASSES])),
   delta_lookup_unknown.2.1 [] "D" "A" 1 (Or.inl rfl),
   delta_lookup_unknown.2.2 [⟨"D", 25⟩, ⟨"X", 25⟩] "X" "D" 1 25 25
     (by simp [statLookup]) (by simp [statLookup])
     (by simp [alookup, LCZ_TEMPERATURE_DELTA])⟩

/-- C4 counterexample: with a statistics table containing the class "X"
(absent from the thermal-offset table) and the baseline class "D",
simulate_lcz_change("X", "D") does not fail: it returns a result whose
expected_change is 0, computed as if the unknown label "X" had offset 0 and
indistinguishable from a legitimate zero delta. -/
theorem simulate_lcz_change_unknown_counterexample :
    alookup LCZ_TEMPERATURE_DELTA "X" = none ∧
    (simulate_lcz_change [⟨"D", 25⟩, ⟨"X", 25⟩] "X" "D" 1).toOption.map
        (·.expected_change) = some 0 := by
  constructor
  · simp [alookup, LCZ_TEMPERATURE_DELTA]
  · simp [simulate_lcz_change, statLookup, alookup, LCZ_TEMPERATURE_DELTA,
      Except.toOption]
    norm_num

/-- Helper: List.find? returns the head of the filtered list. -/
theorem find_eq_head_filter {α : Type} (p : α → Bool) :
    ∀ l : List α, l.find? p = (l.filter p).head? := by
  intro l
  induction l with
  | nil => rfl
  | cons a t ih =>
    cases h : p a
    · rw [List.find?_cons_of_neg _ (by simp [h]),
        List.filter_cons_of_neg (by simp [h]), ih]
    · rw [List.find?_cons_of_pos _ h, List.filter_cons_of_pos h]
      rfl

/-- Helper: when at most one zone contains the point, its spatial-join block
is the single class produced by the first containing zone (or null). -/
theorem sjoinRowsFor_eq (zones : List GeoZone) (p : Sample)
    (h : (zones.filter fun z => z.containsPt p.lon p.lat).length ≤ 1) :
    sjoinRowsFor zones p =
      [(zones.find? fun z => z.containsPt p.lon p.lat).map (·.lcz_class)] := by
  unfold sjoinRowsFor
  rw [find_eq_head_filter]
  rcases hf : zones.filter fun z => z.containsPt p.lon p.lat with _ | ⟨z, t⟩
  · rw [hf]
    rfl
  · rw [hf] at h ⊢
    rcases t with _ | ⟨z2, t2⟩
    · rfl
    · simp at h

/-- Helper: the joined class column aligns with the sample rows when every
sample lies in at most one zone. -/
theorem sjoinRows_eq (zones : List GeoZone) :
    ∀ df : List Sample,
      (∀ s ∈ df, (zones.filter fun z => z.containsPt s.lon s.lat).length ≤ 1) →
      sjoinRows zones df =
        df.map fun s =>
          (zones.find? fun z => z.containsPt s.lon s.lat).map (·.lcz_class) := by
  intro df
  induction df with
  | nil => intro _; rfl
  | cons a t ih =>
    intro h
    show sjoinRowsFor zones a ++ sjoinRows zones t = _
    rw [sjoinRowsFor_eq zones a (h a (by simp)), ih fun s hs => h s (by simp [hs])]
    rfl

/-- Helper: mapping over a list zipped with its own image. -/
theorem zip_map_self {α β γ : Type} (l : List α) (f : α → β) (g : α × β → γ) :
    ((l.zip (l.map f)).map g) = l.map fun a => g (a, f a) := by
  induction l with
  | nil => rfl
  | cons a t ih => simp [ih]

/-- C3 (amended): for every catalog in which each sample point lies within at
most one zone, assign_lcz_to_points succeeds and returns exactly one output
row per input row, in order, with lat, lon and temperature unchanged; the
only written field is lcz_class, set to the class of the first containing
zone in catalog order, and kept null when no zone contains the point. (The
restriction is forced: with an overlapping catalog the spatial join emits
duplicate rows and the column write raises ValueError.) -/
theorem assign_lcz_frame (zones : List GeoZone) (df : List Sample)
    (h : ∀ s ∈ df, (zones.filter fun z => z.containsPt s.lon s.lat).length ≤ 1) :
    assign_lcz_to_points zones df =
      some (df.map fun s =>
        { lat := s.lat, lon := s.lon, temperature := s.temperature
          lcz_class :=
            (zones.find? fun z => z.containsPt s.lon s.lat).map
              (·.lcz_class) }) := by
  unfold assign_lcz_to_points
  rw [sjoinRows_eq zones df h]
  dsimp only
  rw [List.length_map, if_pos rfl, zip_map_self]

/-- Witness for assign_lcz_frame: a one-zone catalog and a single sample,
attributed to the zone containing it. -/
theorem assign_lcz_frame_witness :
    assign_lcz_to_points [⟨"1", fun _ _ => true⟩] [⟨0, 0, 25⟩] =
      some [{ lat := 0, lon := 0, temperature := 25, lcz_class := some "1" }] := by
  rw [assign_lcz_frame [⟨"1", fun _ _ => true⟩] [⟨0, 0, 25⟩] ?_]
  · rfl
  · intro s hs
    rw [List.mem_singleton] at hs
    subst hs
    decide

/-- C3 counterexample: with a catalog of two zones both containing the single
sample point, the left spatial join returns two rows for one point, the
column assignment raises ValueError (length mismatch), and no same-length
output is returned at all. -/
theorem assign_lcz_overlap_counterexample :
    assign_lcz_to_points
      [⟨"1", fun _ _ => true⟩, ⟨"2", fun _ _ => true⟩] [⟨0, 0, 25⟩] = none := rfl

/-- Helper: no catalog zone matches any source class iff the filtered zone
list is empty. -/
theorem zonesMatching_eq_nil (gdf : List CatZone) (src : List String)
    (h : ¬ ∃ z ∈ gdf, z.lcz_class ∈ src) : zonesMatching gdf src = [] := by
  push_neg at h
  unfold zonesMatching
  rw [List.filter_eq_nil_iff]
  intro z hz
  simpa using h z hz

/-- Helper: statistics are missing for every source class iff the collected
source means are empty. -/
theorem sourceMeans_eq_nil (stats : List MeanEntry) (src : List String)
    (h : ¬ ∃ c ∈ src, statLookup stats c ≠ none) : sourceMeans stats src = [] := by
  push_neg at h
  unfold sourceMeans
  rw [List.filterMap_eq_nil_iff]
  exact h

/-- C5: whenever some catalog zone's class is a source class, some source
class has statistics, and the target class has statistics, both conversion
flavors succeed with affected_area = (sum of matching zone areas) x rate and
expected change = (target mean - unweighted mean of the collected per-source-
class means) x rate, the two flavors agreeing; otherwise both fail with a
ValueError and no zero temperature is substituted. The source classes form a
set (hnd), so the collected means carry one entry per source class that has
statistics. -/
theorem simulate_conversion_spec (gdf : List CatZone) (stats : List MeanEntry)
    (src : List String) (target : String) (rate : ℚ) (hnd : src.Nodup) :
    (((∃ z ∈ gdf, z.lcz_class ∈ src) ∧ (∃ c ∈ src, statLookup stats c ≠ none) ∧
        statLookup stats target ≠ none) →
      ∃ ru rg tm, statLookup stats target = some tm ∧
        simulate_urbanization_scenario gdf stats src target rate = .ok ru ∧
        simulate_greening_scenario gdf stats src target rate = .ok rg ∧
        ru.total_area_converted_km2 =
          ((zonesMatching gdf src).map (·.area_km2)).sum * rate ∧
        ru.expected_temp_increase =
          (tm - (sourceMeans stats src).sum /
            ((sourceMeans stats src).length : ℚ)) * rate ∧
        rg.total_area_converted_km2 = ru.total_area_converted_km2 ∧
        rg.expected_temp_decrease = ru.expected_temp_increase) ∧
    (¬ ((∃ z ∈ gdf, z.lcz_class ∈ src) ∧ (∃ c ∈ src, statLookup stats c ≠ none) ∧
        statLookup stats target ≠ none) →
      (∃ e, simulate_urbanization_scenario gdf stats src target rate = .error e) ∧
      (∃ e, simulate_greening_scenario gdf stats src target rate = .error e)) := by
  constructor
  · rintro ⟨⟨z, hz, hzs⟩, ⟨c, hcs, hcn⟩, htn⟩
    obtain ⟨tm, htm⟩ := Option.ne_none_iff_exists'.mp htn
    have hzmem : z ∈ zonesMatching gdf src :=
      List.mem_filter.mpr ⟨hz, by simpa using hzs⟩
    have hzlen : ¬ (zonesMatching gdf src).length = 0 := by
      intro hh
      rw [List.length_eq_zero] at hh
      exact List.ne_nil_of_mem hzmem hh
    obtain ⟨v, hv⟩ := Option.ne_none_iff_exists'.mp hcn
    have hsmem : v ∈ sourceMeans stats src :=
      List.mem_filterMap.mpr ⟨c, hcs, hv⟩
    have hslen : (sourceMeans stats src).length ≠ 0 := by
      intro hh
      rw [List.length_eq_zero] at hh
      exact List.ne_nil_of_mem hsmem hh
    have hu : simulate_urbanization_scenario gdf stats src target rate = .ok
        { scenario_type := "urbanization"
          vegetation_classes := src
          target_class := target
          conversion_rate := rate
          total_area_converted_km2 :=
            ((zonesMatching gdf src).map (·.area_km2)).sum * rate
          avg_vegetation_temp :=
            (sourceMeans stats src).sum / ((sourceMeans stats src).length : ℚ)
          target_urban_temp := tm
          expected_temp_increase :=
            (tm - (sourceMeans stats src).sum /
              ((sourceMeans stats src).length : ℚ)) * rate
          num_zones_affected := (zonesMatching gdf src).length } := by
      unfold simulate_urbanization_scenario
      rw [if_neg hzlen]
      dsimp only
      rw [if_pos hslen, htm]
    have hg : simulate_greening_scenario gdf stats src target rate = .ok
        { scenario_type := "greening"
          urban_classes := src
          target_class := target
          conversion_rate := rate
          total_area_converted_km2 :=
            ((zonesMatching gdf src).map (·.area_km2)).sum * rate
          avg_urban_temp :=
            (sourceMeans stats src).sum / ((sourceMeans stats src).length : ℚ)
          target_vegetation_temp := tm
          expected_temp_decrease :=
            (tm - (sourceMeans stats src).sum /
              ((sourceMeans stats src).length : ℚ)) * rate
          num_zones_affected := (zonesMatching gdf src).length } := by
      unfold simulate_greening_scenario
      rw [if_neg hzlen]
      dsimp only
      rw [if_pos hslen, htm]
    exact ⟨_, _, tm, htm, hu, hg, rfl, rfl, rfl, rfl⟩
  · intro hn
    by_cases h1 : ∃ z ∈ gdf, z.lcz_class ∈ src
    · by_cases h2 : ∃ c ∈ src, statLookup stats c ≠ none
      · have h3 : statLookup stats target = none := by
          by_contra hc
          exact hn ⟨h1, h2, hc⟩
        obtain ⟨z, hz, hzs⟩ := h1
        have hzlen : ¬ (zonesMatching gdf src).length = 0 := by
          intro hh
          rw [List.length_eq_zero] at hh
          exact List.ne_nil_of_mem
            (List.mem_filter.mpr ⟨hz, by simpa using hzs⟩) hh
        obtain ⟨c, hcs, hcn⟩ := h2
        obtain ⟨v, hv⟩ := Option.ne_none_iff_exists'.mp hcn
        have hslen : (sourceMeans stats src).length ≠ 0 := by
          intro hh
          rw [List.length_eq_zero] at hh
          exact List.ne_nil_of_mem (List.mem_filterMap.mpr ⟨c, hcs, hv⟩) hh
        constructor
        · refine ⟨"Dados de temperatura insuficientes", ?_⟩
          unfold simulate_urbanization_scenario
          rw [if_neg hzlen]
          dsimp only
          rw [if_pos hslen, h3]
        · refine ⟨"Dados de temperatura insuficientes", ?_⟩
          unfold simulate_greening_scenario
          rw [if_neg hzlen]
          dsimp only
          rw [if_pos hslen, h3]
      · have hs0 : sourceMeans stats src = [] := sourceMeans_eq_nil stats src h2
        by_cases hz0 : (zonesMatching gdf src).length = 0
        · constructor
          · refine ⟨"Nenhuma zona de vegetação encontrada", ?_⟩
            unfold simulate_urbanization_scenario
            rw [if_pos hz0]
          · refine ⟨"Nenhuma zona urbana encontrada", ?_⟩
            unfold simulate_greening_scenario
            rw [if_pos hz0]
        · constructor
          · refine ⟨"Dados de temperatura insuficientes", ?_⟩
            unfold simulate_urbanization_scenario
            rw [if_neg hz0]
            dsimp only
            rw [hs0]
            cases statLookup stats target <;> rfl
          · refine ⟨"Dados de temperatura insuficientes", ?_⟩
            unfold simulate_greening_scenario
            rw [if_neg hz0]
            dsimp only
            rw [hs0]
            cases statLookup stats target <;> rfl
    · have hz0 : zonesMatching gdf src = [] := zonesMatching_eq_nil gdf src h1
      constructor
      · refine ⟨"Nenhuma zona de vegetação encontrada", ?_⟩
        unfold simulate_urbanization_scenario
        rw [hz0]
        rfl
      · refine ⟨"Nenhuma zona urbana encontrada", ?_⟩
        unfold simulate_greening_scenario
        rw [hz0]
        rfl

/-- Witness for simulate_conversion_spec: the success case at a concrete
catalog, statistics table and scenario. -/
theorem simulate_conversion_spec_witness :
    ∃ ru rg tm, statLookup [⟨"A", 24⟩, ⟨"2", 30⟩] "2" = some tm ∧
      simulate_urbanization_scenario [⟨"A", 2⟩, ⟨"2", 1⟩] [⟨"A", 24⟩, ⟨"2", 30⟩]
        ["A"] "2" (1/2) = .ok ru ∧
      simulate_greening_scenario [⟨"A", 2⟩, ⟨"2", 1⟩] [⟨"A", 24⟩, ⟨"2", 30⟩]
        ["A"] "2" (1/2) = .ok rg ∧
      ru.total_area_converted_km2 =
        ((zonesMatching [⟨"A", 2⟩, ⟨"2", 1⟩] ["A"]).map (·.area_km2)).sum * (1/2) ∧
      ru.expected_temp_increase =
        (tm - (sourceMeans [⟨"A", 24⟩, ⟨"2", 30⟩] ["A"]).sum /
          ((sourceMeans [⟨"A", 24⟩, ⟨"2", 30⟩] ["A"]).length : ℚ)) * (1/2) ∧
      rg.total_area_converted_km2 = ru.total_area_converted_km2 ∧
      rg.expected_temp_decrease = ru.expected_temp_increase :=
  (simulate_conversion_spec [⟨"A", 2⟩, ⟨"2", 1⟩] [⟨"A", 24⟩, ⟨"2", 30⟩]
      ["A"] "2" (1/2) (by simp)).1
    ⟨⟨⟨"A", 2⟩, by simp, by simp⟩,
     ⟨"A", by simp, by simp [statLookup]⟩,
     by simp [statLookup]⟩

/-- Helper: the final sort permutes the statistics rows, so membership in the
result is membership in the observed-delta stage. -/
theorem mem_lcz_statistics {df : List TempRow} {r : StatRow} :
    r ∈ calculate_lcz_statistics df ↔ r ∈ statsWithObserved df := by
  unfold calculate_lcz_statistics
  rw [List.mem_insertionSort]

/-- C6: every statistics row carries the ddof=1 sample variance (pandas std
squared): NaN (none) for a single-sample class, and the Bessel-corrected
centered sum of squares over count - 1 otherwise; on the claim's concrete
samples, class D gets mean 28, count 2 and variance 2 (std = sqrt 2, which
lies in (1.414, 1.415)) while class A gets mean 24, count 1 and missing
variance. -/
theorem lcz_statistics_std :
    (∀ (df : List TempRow) (r : StatRow), r ∈ calculate_lcz_statistics df →
      (r.count = 1 → r.variance_temp = none) ∧
      (2 ≤ r.count → r.variance_temp =
        some ((((classTemps df r.lcz_class).map
            fun t => (t - r.mean_temp) ^ 2).sum) / ((r.count : ℚ) - 1)))) ∧
    ((calculate_lcz_statistics
        [⟨some "D", 27⟩, ⟨some "D", 29⟩, ⟨some "A", 24⟩]).map
      fun r => (r.lcz_class, r.mean_temp, r.variance_temp, r.count)) =
      [("D", 28, some 2, 2), ("A", 24, none, 1)] ∧
    ((1414/1000 : ℝ) < Real.sqrt 2 ∧ Real.sqrt 2 < 1415/1000) := by
  refine ⟨?_, ?_, ?_⟩
  · intro df r hr
    rw [mem_lcz_statistics] at hr
    simp only [statsWithObserved] at hr
    obtain ⟨r0, hr0, rfl⟩ := List.mem_map.mp hr
    simp only [groupedStats] at hr0
    obtain ⟨c, _, rfl⟩ := List.mem_map.mp hr0
    constructor
    · intro h1
      have h1' : (classTemps df c).length = 1 := h1
      show (mkStatRow df c).variance_temp = none
      unfold mkStatRow
      dsimp only
      rw [if_neg (by omega)]
    · intro h2
      have h2' : 2 ≤ (classTemps df c).length := h2
      show (mkStatRow df c).variance_temp = _
      unfold mkStatRow
      dsimp only
      rw [if_pos h2']
  · have hDA : ¬ (("D" : String) ≤ "A") := by
      rw [String.le_iff_toList_le]; decide
    simp [calculate_lcz_statistics, statsWithObserved, groupedStats,
      attributedClasses, mkStatRow, classTemps, List.insertionSort,
      List.orderedInsert, hDA, List.dedup_cons_of_mem,
      List.dedup_cons_of_not_mem]
    norm_num
  · have h := Real.sq_sqrt (by norm_num : (0:ℝ) ≤ 2)
    have hnn := Real.sqrt_nonneg 2
    constructor
    · nlinarith
    · nlinarith

/-- Witness for lcz_statistics_std: the Bessel branch applied to the class-D
row of the claim's concrete samples. -/
theorem lcz_statistics_std_witness :
    ({ lcz_class := "D", mean_temp := 28, variance_temp := some 2,
       min_temp := 27, max_temp := 29, count := 2,
       description := some "Low plants", temp_delta_expected := some 0,
       temp_delta_observed := some 0 } : StatRow).variance_temp =
      some ((((classTemps [⟨some "D", 27⟩, ⟨some "D", 29⟩, ⟨some "A", 24⟩]
          "D").map fun t => (t - (28 : ℚ)) ^ 2).sum) / ((2 : ℚ) - 1)) := by
  have hDA : ¬ (("D" : String) ≤ "A") := by
    rw [String.le_iff_toList_le]; decide
  have hlist : calculate_lcz_statistics
      [⟨some "D", 27⟩, ⟨some "D", 29⟩, ⟨some "A", 24⟩] =
      [{ lcz_class := "D", mean_temp := 28, variance_temp := some 2,
         min_temp := 27, max_temp := 29, count := 2,
         description := some "Low plants", temp_delta_expected := some 0,
         temp_delta_observed := some 0 },
       { lcz_class := "A", mean_temp := 24, variance_temp := none,
         min_temp := 24, max_temp := 24, count := 1,
         description := some "Dense trees", temp_delta_expected := some (-3/2),
         temp_delta_observed := some (-4) }] := by
    simp [calculate_lcz_statistics, statsWithObserved, groupedStats,
      attributedClasses, mkStatRow, classTemps, List.insertionSort,
      List.orderedInsert, hDA, List.dedup_cons_of_mem,
      List.dedup_cons_of_not_mem, listMin, listMax, alookup,
      LCZ_DESCRIPTIONS, LCZ_TEMPERATURE_DELTA]
    norm_num
  exact (lcz_statistics_std.1
      [⟨some "D", 27⟩, ⟨some "D", 29⟩, ⟨some "A", 24⟩] _
      (by rw [hlist]; exact List.mem_cons_self _ _)).2 (by norm_num)

/-- C7: when the baseline class D appears among the aggregated classes, every
row's temp_delta_observed is its mean temperature minus the D row's mean (so
the D row's own delta is 0); when D is absent, every row's
temp_delta_observed is missing (NaN), never 0. -/
theorem lcz_statistics_observed (df : List TempRow) :
    ((∃ r ∈ calculate_lcz_statistics df, r.lcz_class = "D") →
      ∃ dr ∈ calculate_lcz_statistics df, dr.lcz_class = "D" ∧
        dr.temp_delta_observed = some 0 ∧
        ∀ r ∈ calculate_lcz_statistics df,
          r.temp_delta_observed = some (r.mean_temp - dr.mean_temp)) ∧
    ((¬ ∃ r ∈ calculate_lcz_statistics df, r.lcz_class = "D") →
      ∀ r ∈ calculate_lcz_statistics df, r.temp_delta_observed = none) := by
  rcases hfind : (groupedStats df).find? (fun r => r.lcz_class = "D")
    with _ | dr0
  · constructor
    · intro hex
      obtain ⟨r, hr, hD⟩ := hex
      rw [mem_lcz_statistics] at hr
      simp only [statsWithObserved, hfind] at hr
      obtain ⟨r0, h0, rfl⟩ := List.mem_map.mp hr
      have hD0 : r0.lcz_class = "D" := hD
      have hnot := List.find?_eq_none.mp hfind r0 h0
      simp [hD0] at hnot
    · intro _ r hr
      rw [mem_lcz_statistics] at hr
      simp only [statsWithObserved, hfind] at hr
      obtain ⟨r0, _, rfl⟩ := List.mem_map.mp hr
      rfl
  · have hd0 : dr0.lcz_class = "D" := by
      have h := List.find?_some hfind
      simpa using h
    have hd0mem : dr0 ∈ groupedStats df := List.mem_of_find?_eq_some hfind
    have hupd : ({ dr0 with temp_delta_observed := some (dr0.mean_temp - dr0.mean_temp) } : StatRow) ∈
        statsWithObserved df := by
      simp only [statsWithObserved, hfind]
      exact List.mem_map.mpr ⟨dr0, hd0mem, rfl⟩
    have hall : ∀ r ∈ calculate_lcz_statistics df,
        r.temp_delta_observed = some (r.mean_temp - dr0.mean_temp) := by
      intro r hr
      rw [mem_lcz_statistics] at hr
      simp only [statsWithObserved, hfind] at hr
      obtain ⟨r0, _, rfl⟩ := List.mem_map.mp hr
      rfl
    have hdr : ∃ dr ∈ calculate_lcz_statistics df, dr.lcz_class = "D" ∧
        dr.temp_delta_observed = some 0 ∧
        ∀ r ∈ calculate_lcz_statistics df,
          r.temp_delta_observed = some (r.mean_temp - dr.mean_temp) := by
      refine ⟨{ dr0 with temp_delta_observed := some (dr0.mean_temp - dr0.mean_temp) },
        mem_lcz_statistics.mpr hupd, hd0, ?_, hall⟩
      show some (dr0.mean_temp - dr0.mean_temp) = some 0
      rw [sub_self]
    exact ⟨fun _ => hdr,
      fun hnex => absurd
        (by obtain ⟨dr, hmem, hlab, _, _⟩ := hdr; exact ⟨dr, hmem, hlab⟩)
        hnex⟩

/-- Witness for lcz_statistics_observed: the baseline-present branch at the
claim's concrete samples, where observed_delta(D) = 0. -/
theorem lcz_statistics_observed_witness :
    ∃ dr ∈ calculate_lcz_statistics
        [⟨some "D", 27⟩, ⟨some "D", 29⟩, ⟨some "A", 24⟩],
      dr.lcz_class = "D" ∧ dr.temp_delta_observed = some 0 ∧
      ∀ r ∈ calculate_lcz_statistics
          [⟨some "D", 27⟩, ⟨some "D", 29⟩, ⟨some "A", 24⟩],
        r.temp_delta_observed = some (r.mean_temp - dr.mean_temp) := by
  have hDA : ¬ (("D" : String) ≤ "A") := by
    rw [String.le_iff_toList_le]; decide
  have hlist : calculate_lcz_statistics
      [⟨some "D", 27⟩, ⟨some "D", 29⟩, ⟨some "A", 24⟩] =
      [{ lcz_class := "D", mean_temp := 28, variance_temp := some 2,
         min_temp := 27, max_temp := 29, count := 2,
         description := some "Low plants", temp_delta_expected := some 0,
         temp_delta_observed := some 0 },
       { lcz_class := "A", mean_temp := 24, variance_temp := none,
         min_temp := 24, max_temp := 24, count := 1,
         description := some "Dense trees", temp_delta_expected := some (-3/2),
         temp_delta_observed := some (-4) }] := by
    simp [calculate_lcz_statistics, statsWithObserved, groupedStats,
      attributedClasses, mkStatRow, classTemps, List.insertionSort,
      List.orderedInsert, hDA, List.dedup_cons_of_mem,
      List.dedup_cons_of_not_mem, listMin, listMax, alookup,
      LCZ_DESCRIPTIONS, LCZ_TEMPERATURE_DELTA]
    norm_num
  refine (lcz_statistics_observed
      [⟨some "D", 27⟩, ⟨some "D", 29⟩, ⟨some "A", 24⟩]).1
    ⟨{ lcz_class := "D", mean_temp := 28, variance_temp := some 2, min_temp := 27, max_temp := 29, count := 2, description := some "Low plants", temp_delta_expected := some 0, temp_delta_observed := some 0 }, ?_, rfl⟩
  rw [hlist]
  exact List.mem_cons_self _ _

/-- Helper: inserting a row whose label is below every label of a list
sorted by (mean descending, label ascending) keeps it so sorted: the stable
descending insertion by mean places the row before the rows of equal mean,
where its smaller label is the ascending tie order. -/
theorem orderedInsert_meanLexDesc (x : StatRow) :
    ∀ l : List StatRow, l.Pairwise meanLexDesc →
      (∀ y ∈ l, x.lcz_class < y.lcz_class) →
      (List.orderedInsert (fun a b => b.mean_temp ≤ a.mean_temp) x l).Pairwise
        meanLexDesc := by
  intro l
  induction l with
  | nil =>
    intro _ _
    simp [List.orderedInsert]
  | cons b t ih =>
    intro hl hx
    simp only [List.orderedInsert]
    by_cases hab : b.mean_temp ≤ x.mean_temp
    · rw [if_pos hab]
      refine List.Pairwise.cons ?_ hl
      intro y hy
      rcases List.mem_cons.mp hy with rfl | hyt
      · rcases lt_or_eq_of_le hab with h | h
        · exact Or.inl h
        · exact Or.inr ⟨h.symm, hx y hy⟩
      · have hby : meanLexDesc b y := (List.pairwise_cons.mp hl).1 y hyt
        have hbm : y.mean_temp ≤ b.mean_temp := by
          rcases hby with h | ⟨h, _⟩
          · exact le_of_lt h
          · exact le_of_eq h.symm
        rcases lt_or_eq_of_le (le_trans hbm hab) with h | h
        · exact Or.inl h
        · exact Or.inr ⟨h.symm, hx y (List.mem_cons_of_mem b hyt)⟩
    · rw [if_neg hab]
      refine List.Pairwise.cons ?_
        (ih (List.pairwise_cons.mp hl).2
          fun y hy => hx y (List.mem_cons_of_mem b hy))
      intro y hy
      rcases (List.mem_orderedInsert
          (fun a b : StatRow => b.mean_temp ≤ a.mean_temp)).mp hy
        with rfl | hyt
      · exact Or.inl (lt_of_not_le hab)
      · exact (List.pairwise_cons.mp hl).1 y hyt

/-- Helper: the stable insertion sort by descending mean of a list with
strictly ascending labels is sorted by mean descending with ties in label
ascending order. -/
theorem insertionSort_meanLexDesc :
    ∀ l : List StatRow, l.Pairwise (fun a b => a.lcz_class < b.lcz_class) →
      (List.insertionSort (fun a b => b.mean_temp ≤ a.mean_temp) l).Pairwise
        meanLexDesc := by
  intro l
  induction l with
  | nil =>
    intro _
    simp [List.insertionSort]
  | cons a t ih =>
    intro h
    simp only [List.insertionSort]
    apply orderedInsert_meanLexDesc
    · exact ih (List.pairwise_cons.mp h).2
    · intro y hy
      rw [List.mem_insertionSort] at hy
      exact (List.pairwise_cons.mp h).1 y hy

/-- Helper: the groupby stage produces rows with strictly ascending class
labels (sorted, duplicate-free group keys). -/
theorem groupedStats_labels_sorted (df : List TempRow) :
    (groupedStats df).Pairwise fun a b => a.lcz_class < b.lcz_class := by
  unfold groupedStats
  rw [List.pairwise_map]
  have h1 : (attributedClasses df).Sorted (· ≤ ·) := by
    unfold attributedClasses
    exact List.sorted_insertionSort _ _
  have h2 : (attributedClasses df).Nodup :=
    (List.perm_insertionSort _ _).nodup_iff.mpr (List.nodup_dedup _)
  exact (h1.lt_of_le h2).imp fun h => h

/-- Helper: writing the observed-delta column does not touch labels or
means, so the strict label order survives. -/
theorem statsWithObserved_labels_sorted (df : List TempRow) :
    (statsWithObserved df).Pairwise fun a b => a.lcz_class < b.lcz_class := by
  unfold statsWithObserved
  dsimp only
  rw [List.pairwise_map]
  exact (groupedStats_labels_sorted df).imp fun h => h

/-- C8: the statistics rows are ordered by mean temperature descending, and
any two rows with equal mean temperature appear in class label ASCENDING
order (pandas nargsort reverses the values and indices around the stable
ascending argsort and reverses the indexer back, so the descending sort is
stable and keeps the label-ascending groupby order among ties); the row
order is a deterministic function of the input. Concretely, equal-mean
classes A and B come out [A, B]. -/
theorem lcz_statistics_order :
    (∀ df : List TempRow, (calculate_lcz_statistics df).Pairwise fun a b =>
      b.mean_temp < a.mean_temp ∨
        (a.mean_temp = b.mean_temp ∧ a.lcz_class < b.lcz_class)) ∧
    ((calculate_lcz_statistics [⟨some "A", 25⟩, ⟨some "B", 25⟩]).map
        fun r => (r.lcz_class, r.mean_temp)) = [("A", 25), ("B", 25)] := by
  constructor
  · intro df
    unfold calculate_lcz_statistics
    exact (insertionSort_meanLexDesc (statsWithObserved df)
      (statsWithObserved_labels_sorted df)).imp fun h => h
  · have hAB : (("A" : String) ≤ "B") := by
      rw [String.le_iff_toList_le]; decide
    simp [calculate_lcz_statistics, statsWithObserved, groupedStats,
      attributedClasses, mkStatRow, classTemps, List.insertionSort,
      List.orderedInsert, hAB, List.dedup_cons_of_mem,
      List.dedup_cons_of_not_mem]

/-- Helper: the lexicographic RGB order is reflexive. -/
theorem rgbLe_refl (a : RGB) : rgbLe a a := by
  unfold rgbLe
  omega

/-- Helper: the argmax scan returns none exactly on the empty candidate
list. -/
theorem firstMode_eq_none (pixels : List RGB) :
    ∀ l : List RGB, firstMode pixels l = none ↔ l = [] := by
  intro l
  cases l with
  | nil => simp [firstMode]
  | cons a t =>
    simp only [firstMode]
    rcases hb : firstMode pixels t with _ | b <;> dsimp only
    · simp
    · split_ifs <;> simp

/-- Helper: the argmax scan returns a candidate of maximal count. -/
theorem firstMode_max (pixels : List RGB) :
    ∀ (l : List RGB) (c : RGB), firstMode pixels l = some c →
      c ∈ l ∧ ∀ d ∈ l, pixels.count d ≤ pixels.count c := by
  intro l
  induction l with
  | nil => intro c h; simp [firstMode] at h
  | cons a t ih =>
    intro c h
    simp only [firstMode] at h
    rcases ht : firstMode pixels t with _ | b <;> rw [ht] at h <;> dsimp only at h
    · have htnil : t = [] := (firstMode_eq_none pixels t).mp ht
      subst htnil
      injection h with h2
      subst h2
      refine ⟨List.mem_cons_self _ _, ?_⟩
      intro d hd
      rcases List.mem_cons.mp hd with rfl | h0
      · exact le_refl _
      · cases h0
    · obtain ⟨hbmem, hbmax⟩ := ih b ht
      by_cases hcmp : pixels.count b > pixels.count a
      · rw [if_pos hcmp] at h
        injection h with h2
        subst h2
        refine ⟨List.mem_cons_of_mem a hbmem, ?_⟩
        intro d hd
        rcases List.mem_cons.mp hd with rfl | hdt
        · exact le_of_lt hcmp
        · exact hbmax d hdt
      · rw [if_neg hcmp] at h
        injection h with h2
        subst h2
        refine ⟨List.mem_cons_self _ _, ?_⟩
        intro d hd
        rcases List.mem_cons.mp hd with rfl | hdt
        · exact le_refl _
        · exact le_trans (hbmax d hdt) (le_of_not_lt hcmp)

/-- Helper: on a strictly lex-sorted candidate list, the argmax scan keeps
the first (lex-least) candidate among equal counts. -/
theorem firstMode_first (pixels : List RGB) :
    ∀ (l : List RGB) (c : RGB), l.Pairwise rgbLt →
      firstMode pixels l = some c →
      ∀ d ∈ l, pixels.count d = pixels.count c → rgbLe c d := by
  intro l
  induction l with
  | nil => intro c _ h; simp [firstMode] at h
  | cons a t ih =>
    intro c hp h d hd hcnt
    simp only [firstMode] at h
    rcases ht : firstMode pixels t with _ | b <;> rw [ht] at h <;> dsimp only at h
    · have htnil : t = [] := (firstMode_eq_none pixels t).mp ht
      subst htnil
      injection h with h2
      subst h2
      rcases List.mem_cons.mp hd with rfl | h0
      · exact rgbLe_refl _
      · cases h0
    · by_cases hcmp : pixels.count b > pixels.count a
      · rw [if_pos hcmp] at h
        injection h with h2
        subst h2
        rcases List.mem_cons.mp hd with rfl | hdt
        · omega
        · exact ih _ (List.pairwise_cons.mp hp).2 ht d hdt hcnt
      · rw [if_neg hcmp] at h
        injection h with h2
        subst h2
        rcases List.mem_cons.mp hd with rfl | hdt
        · exact rgbLe_refl _
        · exact ((List.pairwise_cons.mp hp).1 d hdt).1

/-- Helper: membership in the sorted unique color list is membership in the
pixel block. -/
theorem mem_uniqueColors {pixels : List RGB} {c : RGB} :
    c ∈ uniqueColors pixels ↔ c ∈ pixels := by
  unfold uniqueColors
  rw [List.mem_insertionSort, List.mem_dedup]

/-- Helper: the unique color list is strictly lex-sorted. -/
theorem uniqueColors_pairwise (pixels : List RGB) :
    (uniqueColors pixels).Pairwise rgbLt := by
  have hsorted : (uniqueColors pixels).Pairwise rgbLe :=
    List.sorted_insertionSort rgbLe (pixels.dedup)
  have hnodup : (uniqueColors pixels).Nodup :=
    (List.perm_insertionSort _ _).nodup_iff.mpr (List.nodup_dedup _)
  exact (hsorted.and hnodup).imp fun h => ⟨h.1, h.2⟩

/-- Helper: the running minimum of find_closest_lcz never drops below the
distances seen, so a color at squared distance at least 900 from every table
entry ends with a minimum at least 900. -/
theorem closestAux_min (color : RGB) :
    ∀ (l : List (ℕ × RGB)) (acc : Option (ℕ × ℤ)),
      (∀ e ∈ l, 900 ≤ distSq color e.2) →
      (acc = none ∨ ∃ cd, acc = some cd ∧ 900 ≤ cd.2) →
      (closestAux color l acc = none ∨
        ∃ cd, closestAux color l acc = some cd ∧ 900 ≤ cd.2) := by
  intro l
  induction l with
  | nil =>
    intro acc _ hacc
    simpa [closestAux] using hacc
  | cons e t ih =>
    intro acc hl hacc
    rcases hacc with rfl | ⟨⟨cls, d⟩, rfl, hd⟩
    · exact ih (some (e.1, distSq color e.2))
        (fun e' he' => hl e' (List.mem_cons_of_mem e he'))
        (Or.inr ⟨(e.1, distSq color e.2), rfl, hl e (List.mem_cons_self e t)⟩)
    · simp only [closestAux]
      by_cases hlt : distSq color e.2 < d
      · rw [if_pos hlt]
        exact ih _ (fun e' he' => hl e' (List.mem_cons_of_mem e he'))
          (Or.inr ⟨(e.1, distSq color e.2), rfl, hl e (List.mem_cons_self e t)⟩)
      · rw [if_neg hlt]
        exact ih _ (fun e' he' => hl e' (List.mem_cons_of_mem e he'))
          (Or.inr ⟨(cls, d), rfl, hd⟩)

/-- C9 (amended): the raster cell classifier takes the most frequent color
of the pixel block, breaking ties among equally frequent colors in favor of
the lexicographically smallest RGB triple (np.unique sorts the colors before
np.argmax picks the first maximum), NOT the first color in pixel scan order;
a dominant color exactly matching a table entry classifies at distance 0 to
that entry's class, a color at distance at least the tolerance 30 (squared:
900) from every entry is dropped, and a dropped cell contributes no grid
feature. -/
theorem raster_classification_spec :
    (∀ (pixels : List RGB) (c : RGB), dominantColor pixels = some c →
      c ∈ pixels ∧ ∀ d ∈ pixels, pixels.count d ≤ pixels.count c ∧
        (pixels.count d = pixels.count c → rgbLe c d)) ∧
    (∀ p ∈ LCZ_COLORS, distSq p.2 p.2 = 0 ∧ find_closest_lcz p.2 = some p.1) ∧
    (∀ color : RGB, (∀ p ∈ LCZ_COLORS, 900 ≤ distSq color p.2) →
      find_closest_lcz color = none) ∧
    (∀ cells : List (List RGB),
      (create_grid_features cells).length =
        (cells.filter fun cell => (classifyCell cell).isSome).length) := by
  refine ⟨?_, by decide, ?_, ?_⟩
  · intro pixels c hdom
    obtain ⟨hcmem, hmax⟩ :=
      firstMode_max pixels (uniqueColors pixels) c hdom
    refine ⟨mem_uniqueColors.mp hcmem, ?_⟩
    intro d hd
    have hdu : d ∈ uniqueColors pixels := mem_uniqueColors.mpr hd
    exact ⟨hmax d hdu,
      fun hcnt => firstMode_first pixels (uniqueColors pixels) c
        (uniqueColors_pairwise pixels) hdom d hdu hcnt⟩
  · intro color h
    unfold find_closest_lcz
    rcases closestAux_min color LCZ_COLORS none h (Or.inl rfl)
      with hnone | ⟨⟨cls, d⟩, heq, hd⟩
    · rw [hnone]
    · have hd' : (900 : ℤ) ≤ d := hd
      rw [heq]
      dsimp only
      rw [if_neg (by omega)]
  · intro cells
    induction cells with
    | nil => rfl
    | cons c t ih =>
      cases h : classifyCell c <;>
        simp [create_grid_features, List.filterMap_cons, List.filter_cons,
          h, ih, create_grid_features] at ih ⊢ <;>
        simpa using ih

/-- Witness for raster_classification_spec: the exact-match branch at the
table entry of class 1 and the drop branch at a color far from every entry. -/
theorem raster_classification_spec_witness :
    (distSq ((140, 0, 0) : RGB) ((140, 0, 0) : RGB) = 0 ∧
      find_closest_lcz ((140, 0, 0) : RGB) = some 1) ∧
    find_closest_lcz ((1000, 1000, 1000) : RGB) = none :=
  ⟨raster_classification_spec.2.1 (1, (140, 0, 0)) (by decide),
   raster_classification_spec.2.2.1 ((1000, 1000, 1000) : RGB) (by decide)⟩

/-- C9 counterexample: in a two-pixel block whose colors are the table
colors of classes 3 and 1 (one pixel each), the first color in scan order is
(255, 0, 0) of class 3, but np.unique sorts the tied colors and np.argmax
returns the lexicographically smaller (140, 0, 0), so the cell classifies as
class 1, not 3. -/
theorem raster_tiebreak_counterexample :
    dominantColor [(255, 0, 0), (140, 0, 0)] = some ((140, 0, 0) : RGB) ∧
    classifyCell [(255, 0, 0), (140, 0, 0)] = some 1 ∧
    find_closest_lcz ((255, 0, 0) : RGB) = some 3 := by
  decide

/-- Helper: updating a key's value does not change the dict's key sequence. -/
theorem aupdate_keys {β : Type} (l : List (String × β)) (k : String) (v : β) :
    (aupdate l k v).map Prod.fst = l.map Prod.fst := by
  unfold aupdate
  induction l with
  | nil => rfl
  | cons p t ih =>
    simp only [List.map_cons, ih]
    by_cases h : p.1 = k
    · simp [h]
    · simp [h]

/-- Helper: looking up the updated key returns the new value when the key
exists. -/
theorem alookup_aupdate_self {β : Type} (l : List (String × β)) (k : String)
    (v : β) : alookup (aupdate l k v) k = (alookup l k).map fun _ => v := by
  induction l with
  | nil => rfl
  | cons p t ih =>
    simp only [aupdate, List.map_cons] at *
    by_cases h : p.1 = k
    · rw [if_pos h]
      simp [alookup, h]
    · rw [if_neg h]
      simp [alookup, h, ih]

/-- Helper: updating one key leaves every other key's lookup unchanged. -/
theorem alookup_aupdate_ne {β : Type} (l : List (String × β)) (k k' : String)
    (v : β) (hne : k' ≠ k) :
    alookup (aupdate l k v) k' = alookup l k' := by
  induction l with
  | nil => rfl
  | cons p t ih =>
    simp only [aupdate, List.map_cons] at *
    by_cases h : p.1 = k
    · rw [if_pos h]
      simp only [alookup]
      rw [if_neg (by simpa using Ne.symm hne),
        if_neg (fun hh => hne (by rw [← hh]; exact h))]
      exact ih
    · rw [if_neg h]
      simp only [alookup]
      by_cases h2 : p.1 = k'
      · rw [if_pos h2, if_pos h2]
      · rw [if_neg h2, if_neg h2]
        exact ih

/-- Helper: the bulk fold leaves every key's sequence intact. -/
theorem bulk_fold_keys (classes : List (String × ClassEntry))
    (temps : List (String × ℚ)) :
    ∀ (cs : List ZoneChange) (acc : List (String × ℚ)),
      acc.map Prod.fst = temps.map Prod.fst →
      (cs.foldl
        (fun modified change =>
          match alookup temps change.zone_id with
          | none => modified
          | some base_temp =>
            match calculate_temperature_delta classes change.from_lcz change.to_lcz base_temp with
            | none => modified
            | some result => aupdate modified change.zone_id result.new_temperature)
        acc).map Prod.fst = temps.map Prod.fst := by
  intro cs
  induction cs with
  | nil => intro acc h; simpa using h
  | cons c rest ih =>
    intro acc h
    simp only [List.foldl_cons]
    rcases alookup temps c.zone_id with _ | base <;> dsimp only
    · exact ih acc h
    · rcases calculate_temperature_delta classes c.from_lcz c.to_lcz base
        with _ | r <;> dsimp only
      · exact ih acc h
      · exact ih _ ((aupdate_keys acc c.zone_id r.new_temperature).trans h)

/-- Helper: each step of the bulk fold rewrites the running value of a key
exactly when the change references it with both classes known, always from
the key's original temperature, so the fold ends at the last applicable
change's new temperature. -/
theorem bulk_fold_lookup (classes : List (String × ClassEntry))
    (temps : List (String × ℚ)) (k : String) (t0 : ℚ)
    (hk : alookup temps k = some t0) :
    ∀ (cs : List ZoneChange) (acc : List (String × ℚ)) (g : ℚ),
      alookup acc k = some g →
      alookup (cs.foldl
        (fun modified change =>
          match alookup temps change.zone_id with
          | none => modified
          | some base_temp =>
            match calculate_temperature_delta classes change.from_lcz change.to_lcz base_temp with
            | none => modified
            | some result => aupdate modified change.zone_id result.new_temperature)
        acc) k =
      some (match lastApplicable classes k t0 cs with
        | none => g
        | some v => v) := by
  intro cs
  induction cs with
  | nil =>
    intro acc g hg
    simpa [lastApplicable] using hg
  | cons c rest ih =>
    intro acc g hg
    simp only [List.foldl_cons, lastApplicable]
    rcases hz : alookup temps c.zone_id with _ | base <;> (try rw [hz]) <;>
      dsimp only
    · have hne : ¬ c.zone_id = k := by
        intro hh
        rw [hh, hk] at hz
        cases hz
      rw [if_neg hne]
      exact ih acc g hg
    · rcases hc : calculate_temperature_delta classes c.from_lcz c.to_lcz base
        with _ | r <;> (try rw [hc]) <;> dsimp only
      · by_cases hzk : c.zone_id = k
        · have hbase : base = t0 := by
            rw [hzk, hk] at hz
            injection hz with hh
            exact hh.symm
          subst hbase
          rw [if_pos hzk, hc]
          have hih := ih acc g hg
          rcases hrest : lastApplicable classes k base rest with _ | v <;>
            rw [hrest] at hih <;> simpa using hih
        · rw [if_neg hzk]
          exact ih acc g hg
      · by_cases hzk : c.zone_id = k
        · have hbase : base = t0 := by
            rw [hzk, hk] at hz
            injection hz with hh
            exact hh.symm
          subst hbase
          rw [if_pos hzk, hc]
          have hg' : alookup (aupdate acc c.zone_id r.new_temperature) k =
              some r.new_temperature := by
            rw [hzk, alookup_aupdate_self, hg]
            rfl
          have hih := ih _ r.new_temperature hg'
          rcases hrest : lastApplicable classes k base rest with _ | v <;>
            rw [hrest] at hih <;> simpa using hih
        · rw [if_neg hzk]
          have hg' : alookup (aupdate acc c.zone_id r.new_temperature) k =
              some g := by
            rw [alookup_aupdate_ne acc c.zone_id k r.new_temperature
              (fun hh => hzk hh.symm)]
            exact hg
          exact ih _ g hg'

/-- Helper: a key referenced by no change with both classes known has no
applicable change. -/
theorem lastApplicable_eq_none (classes : List (String × ClassEntry))
    (k : String) (t0 : ℚ) :
    ∀ cs : List ZoneChange,
      (∀ c ∈ cs, c.zone_id = k →
        calculate_temperature_delta classes c.from_lcz c.to_lcz t0 = none) →
      lastApplicable classes k t0 cs = none := by
  intro cs
  induction cs with
  | nil => intro _; rfl
  | cons c rest ih =>
    intro h
    simp only [lastApplicable]
    have hrest := ih fun c' hc' => h c' (List.mem_cons_of_mem c hc')
    by_cases hzk : c.zone_id = k
    · rw [if_pos hzk, hrest, h c (List.mem_cons_self c rest) hzk]
      rfl
    · rw [if_neg hzk]
      exact hrest

/-- C10: calculate_bulk_temperature_change returns a dict with exactly the
input's key sequence; every key whose original temperature is t0 ends at the
new temperature of the last change that references it with both classes in
the table, computed from t0, and stays at t0 when no such change exists —
in particular a key referenced by no change, or only by changes naming an
unknown class, keeps its original temperature. -/
theorem bulk_temperature_frame (classes : List (String × ClassEntry))
    (zone_changes : List ZoneChange) (temperature_data : List (String × ℚ)) :
    (calculate_bulk_temperature_change classes zone_changes
        temperature_data).map Prod.fst = temperature_data.map Prod.fst ∧
    (∀ (k : String) (t0 : ℚ), alookup temperature_data k = some t0 →
      alookup (calculate_bulk_temperature_change classes zone_changes
          temperature_data) k =
        some (match lastApplicable classes k t0 zone_changes with
          | none => t0
          | some v => v)) ∧
    (∀ (k : String) (t0 : ℚ),
      (∀ c ∈ zone_changes, c.zone_id = k →
        calculate_temperature_delta classes c.from_lcz c.to_lcz t0 = none) →
      lastApplicable classes k t0 zone_changes = none) := by
  refine ⟨?_, ?_, ?_⟩
  · unfold calculate_bulk_temperature_change
    exact bulk_fold_keys classes temperature_data zone_changes
      temperature_data rfl
  · intro k t0 hk
    unfold calculate_bulk_temperature_change
    exact bulk_fold_lookup classes temperature_data k t0 hk zone_changes
      temperature_data t0 hk
  · intro k t0 h
    exact lastApplicable_eq_none classes k t0 zone_changes h

/-- Witness for bulk_temperature_frame: a three-key dict, one change with
both classes known (zone z1, class 1 to class 17, 20 degrees becoming 15.5),
one change naming the unknown class "X" (zone z2 keeps 20). -/
theorem bulk_temperature_frame_witness :
    alookup (calculate_bulk_temperature_change LCZ_CLASSES
        [⟨"z1", "1", "17"⟩, ⟨"z2", "X", "17"⟩]
        [("z1", 20), ("z2", 20), ("z3", 20)]) "z1" = some (31/2) ∧
    alookup (calculate_bulk_temperature_change LCZ_CLASSES
        [⟨"z1", "1", "17"⟩, ⟨"z2", "X", "17"⟩]
        [("z1", 20), ("z2", 20), ("z3", 20)]) "z2" = some 20 := by
  have hround : round2 ((20 : ℚ) + (-2.0 - 2.5)) = 31/2 := by
    rw [show ((20 : ℚ) + (-2.0 - 2.5)) = (1550 : ℤ)/100 by push_cast; norm_num,
      round2_hundredth ⟨1550, rfl⟩]
    push_cast
    norm_num
  constructor
  · rw [(bulk_temperature_frame LCZ_CLASSES
        [⟨"z1", "1", "17"⟩, ⟨"z2", "X", "17"⟩]
        [("z1", 20), ("z2", 20), ("z3", 20)]).2.1 "z1" 20
      (by simp [alookup])]
    simp [lastApplicable, calculate_temperature_delta, alookup, LCZ_CLASSES,
      hround]
  · rw [(bulk_temperature_frame LCZ_CLASSES
        [⟨"z1", "1", "17"⟩, ⟨"z2", "X", "17"⟩]
        [("z1", 20), ("z2", 20), ("z3", 20)]).2.1 "z2" 20
      (by simp [alookup])]
    simp [lastApplicable, calculate_temperature_delta, alookup, LCZ_CLASSES]
